import Mathlib

/-!
Verification of the setpoint arbitration-and-delivery engine of the
`smart_heating_optimizer` Home Assistant integration.

The development is a shallow embedding of the Python source:

* `custom_components/smart_heating_optimizer/mqtt_handler.py`
  (`SetpointCommand`, `SmartHeatingMQTTHandler` — the push channel),
* `custom_components/smart_heating_optimizer/__init__.py`
  (`SmartHeatingCoordinator` — the poll channel, boost, away mode),
* `custom_components/smart_heating_optimizer/api_client.py`
  (`SmartHeatingAPIClient.acknowledge_setpoint`, modelled only through the
  trace of outbound API calls).

Modelled conventions:

* temperatures are rationals (`ℚ`), timestamps are integers (`Int`,
  seconds since an arbitrary epoch);
* Python dictionaries keyed by strings become association lists
  `List (String × α)` with `lookupA` / `insertA` / `removeA`;
* Home Assistant's entity registry (`hass.states`) becomes `Env`: a map
  from entity id to its climate state; `climate.set_temperature` service
  calls that raise are modelled by an explicit `writeFails` set, and a
  successful call updates the stored temperature attribute;
* each event-handler method becomes a pure function from the handler (or
  coordinator) state, the environment and the method arguments to the new
  state, the new environment and a trace of externally visible actions
  (actuator writes, bus events, outbound API calls);
* `datetime.fromisoformat` is external library code, abstracted as a
  parameter `parseIso : String → Option Int` (`none` = raises).
-/

namespace SmartHeating

/-! ### Association-list maps (Python `dict[str, ...]`) -/

/-- Dictionary lookup: `d.get(k)`. -/
def lookupA {α : Type} (xs : List (String × α)) (k : String) : Option α :=
  (xs.find? (fun p => p.1 == k)).map (fun p => p.2)

/-- Dictionary update: `d[k] = v`. -/
def insertA {α : Type} (xs : List (String × α)) (k : String) (v : α) :
    List (String × α) :=
  (k, v) :: xs.filter (fun p => p.1 != k)

/-- Dictionary removal: `del d[k]` (no-op when absent). -/
def removeA {α : Type} (xs : List (String × α)) (k : String) :
    List (String × α) :=
  xs.filter (fun p => p.1 != k)

theorem lookupA_insertA_self {α : Type} (xs : List (String × α)) (k : String)
    (v : α) : lookupA (insertA xs k v) k = some v := by
  simp [lookupA, insertA]

theorem find?_filter_ne {α : Type} (xs : List (String × α)) (k k' : String)
    (h : k' ≠ k) :
    List.find? (fun p => p.1 == k') (xs.filter (fun p => p.1 != k)) =
      List.find? (fun p => p.1 == k') xs := by
  induction xs with
  | nil => rfl
  | cons p rest ih =>
    by_cases hp : p.1 = k
    · rw [List.filter_cons_of_neg (by simp [hp])]
      rw [List.find?_cons_of_neg _
        (by simp [beq_iff_eq, hp]; exact fun hkk => h hkk.symm)]
      exact ih
    · rw [List.filter_cons_of_pos (by simp [hp])]
      by_cases hq : p.1 = k'
      · rw [List.find?_cons_of_pos _ (by simp [hq]),
          List.find?_cons_of_pos _ (by simp [hq])]
      · rw [List.find?_cons_of_neg _ (by simp [beq_iff_eq, hq]),
          List.find?_cons_of_neg _ (by simp [beq_iff_eq, hq])]
        exact ih

theorem find?_filter_self_none {α : Type} (xs : List (String × α))
    (k : String) :
    List.find? (fun p => p.1 == k) (xs.filter (fun p => p.1 != k)) = none := by
  induction xs with
  | nil => rfl
  | cons p rest ih =>
    by_cases hp : p.1 = k
    · rw [List.filter_cons_of_neg (by simp [hp])]
      exact ih
    · rw [List.filter_cons_of_pos (by simp [hp]),
        List.find?_cons_of_neg _ (by simp [beq_iff_eq, hp])]
      exact ih

theorem lookupA_insertA_ne {α : Type} (xs : List (String × α)) (k k' : String)
    (v : α) (h : k' ≠ k) : lookupA (insertA xs k v) k' = lookupA xs k' := by
  simp only [lookupA, insertA]
  rw [List.find?_cons_of_neg _
      (by simp [beq_iff_eq]; exact fun hkk => h hkk.symm),
    find?_filter_ne xs k k' h]

theorem lookupA_removeA_self {α : Type} (xs : List (String × α)) (k : String) :
    lookupA (removeA xs k) k = none := by
  simp only [lookupA, removeA]
  rw [find?_filter_self_none xs k]
  rfl

theorem lookupA_removeA_ne {α : Type} (xs : List (String × α)) (k k' : String)
    (h : k' ≠ k) : lookupA (removeA xs k) k' = lookupA xs k' := by
  simp only [lookupA, removeA]
  rw [find?_filter_ne xs k k' h]

/-! ### Setpoint command (`mqtt_handler.py`, class `SetpointCommand`) -/

/-- Embedding of `SetpointCommand`: one setpoint instruction from the
IoT platform. `valid_from` / `valid_until` are optional UTC timestamps. -/
structure SetpointCommand where
  temperature_c : ℚ
  valid_from : Option Int
  valid_until : Option Int
  reason : String
  expected_savings_sek : ℚ
  zone_id : Option String
  deriving Repr, DecidableEq

/-- A decoded JSON value, as `_parse_datetime` can receive it for the
`valid_from` / `valid_until` keys: `jnull` covers both an absent key
(`dict.get` returns `None`) and a JSON `null`. -/
inductive JsonVal where
  | jnull
  | jbool (b : Bool)
  | jnum (q : ℚ)
  | jstr (s : String)
  deriving Repr, DecidableEq

/-- Python truthiness of a decoded JSON value (`if not value`): `None`,
`False`, `0` and `""` are falsy. -/
def JsonVal.truthy : JsonVal → Bool
  | .jnull => false
  | .jbool b => b
  | .jnum q => decide (q ≠ 0)
  | .jstr s => decide (s ≠ "")

/-- Incoming JSON payload for a setpoint command. The two timestamp keys
are kept as raw JSON values because construction can raise on them (see
`parse_datetime`); for every other key the source stores whatever value
is present without any operation that can raise, so those are typed at
their intended shapes, `none` meaning the key is missing. -/
structure RawPayload where
  temperature_c : Option ℚ
  valid_from : JsonVal
  valid_until : JsonVal
  reason : Option String
  expected_savings_sek : Option ℚ
  zone_id : Option String
  deriving Repr, DecidableEq

/-- Embedding of `SetpointCommand._parse_datetime`: a falsy input gives
`None`; on a truthy string, a trailing `"Z"` is rewritten to `"+00:00"`
(check and slice written on the character list, which is what the Python
slicing does) and a `ValueError` from the external
`datetime.fromisoformat` (abstracted as `parseIso`) is caught, giving
`None`; on a truthy NON-string, `value.endswith` raises `AttributeError`,
which the `except (ValueError, TypeError)` clause does NOT catch — the
exception propagates out of the constructor (`Except.error`). -/
def parse_datetime (parseIso : String → Option Int) (value : JsonVal) :
    Except Unit (Option Int) :=
  if !value.truthy then .ok none
  else
    match value with
    | .jstr s =>
      let v := if s.data.getLast? == some 'Z'
               then String.mk s.data.dropLast ++ "+00:00"
               else s
      .ok (parseIso v)
    | _ => .error ()

/-- Embedding of `SetpointCommand.__init__`: construction from a JSON
payload, with the source's defaults (`temperature_c` 20.0, `reason`
"optimization", `expected_savings_sek` 0.0). `valid_from` is parsed
before `valid_until`, and an `AttributeError` escaping `_parse_datetime`
makes the whole construction raise. -/
def SetpointCommand.ofData (parseIso : String → Option Int)
    (data : RawPayload) : Except Unit SetpointCommand :=
  match parse_datetime parseIso data.valid_from with
  | .error e => .error e
  | .ok vf =>
    match parse_datetime parseIso data.valid_until with
    | .error e => .error e
    | .ok vu =>
      .ok { temperature_c := data.temperature_c.getD 20
            valid_from := vf
            valid_until := vu
            reason := data.reason.getD "optimization"
            expected_savings_sek := data.expected_savings_sek.getD 0
            zone_id := data.zone_id }

/-- A timestamp field value on which construction does NOT raise: a
string, or any falsy value. Characterization predicate used to state how
`SetpointCommand.ofData` can fail. -/
def timestampFieldSafe : JsonVal → Bool
  | .jstr _ => true
  | v => !v.truthy

/-- Embedding of `SetpointCommand.is_valid_now`, with the reference time
passed explicitly in place of `dt_util.utcnow()`. -/
def SetpointCommand.is_valid_now (c : SetpointCommand) (now : Int) : Bool :=
  if c.valid_from.any (fun vf => decide (now < vf)) then false
  else if c.valid_until.any (fun vu => decide (vu < now)) then false
  else true

/-- Tri-state validity outcome named by the specification. -/
inductive Validity where
  | NOT_YET_VALID
  | EXPIRED
  | VALID
  deriving Repr, DecidableEq

/-- Modelled from the spec (section 4.1, Validity Evaluator), for the
refinement comparison with `SetpointCommand.is_valid_now`: `NOT_YET_VALID`
if `valid_from` is set and the reference is before it; otherwise `EXPIRED`
if `valid_until` is set and the reference is after it; otherwise `VALID`. -/
def specValidity (c : SetpointCommand) (ref : Int) : Validity :=
  if c.valid_from.any (fun vf => decide (ref < vf)) then .NOT_YET_VALID
  else if c.valid_until.any (fun vu => decide (vu < ref)) then .EXPIRED
  else .VALID

/-! ### Home Assistant environment (entity registry + climate service) -/

/-- State of one Home Assistant entity, restricted to what the source
reads: `state.state` parsed as a float (`stateVal`, `none` when unknown,
unavailable or unparseable) and the `temperature` attribute. -/
structure EntityState where
  stateVal : Option ℚ
  temperature : Option ℚ
  deriving Repr, DecidableEq

/-- The surrounding Home Assistant instance: `hass.states` plus the set of
entities for which a `climate.set_temperature` service call raises. -/
structure Env where
  entities : List (String × EntityState)
  writeFails : List String
  deriving Repr, DecidableEq

/-- Embedding of `hass.states.get(entity_id)`. -/
def Env.getState (env : Env) (e : String) : Option EntityState :=
  lookupA env.entities e

/-- Successful `climate.set_temperature` call: the entity's `temperature`
attribute becomes the written value. Callers branch on existence and
`writeFails` before using this. -/
def Env.write (env : Env) (e : String) (t : ℚ) : Env :=
  match lookupA env.entities e with
  | none => env
  | some st =>
    { env with entities := insertA env.entities e { st with temperature := some t } }

/-- Externally visible actions performed by a handler invocation. -/
inductive Action where
  | write (entity : String) (temp : ℚ)
  | event (zone_id : String) (temp : ℚ)
  | apiTelemetry
  | apiAcknowledge (command_id : String) (applied : Bool) (error : Option String)
  deriving Repr, DecidableEq

/-! ### Push channel (`mqtt_handler.py`, class `SmartHeatingMQTTHandler`) -/

/-- One entry of the handler's `_zones` dict: `climate_entity_id` and the
`auto_control` flag; `none` models a missing dict key (the source reads it
with `zone_config.get("auto_control", True)`). -/
structure ZoneConfig where
  climate_entity_id : Option String
  auto_control : Option Bool
  deriving Repr, DecidableEq

/-- One armed timer of `_scheduled_unsubs`: the data captured by the
`apply_scheduled_setpoint` closure plus the time the timer was armed for
(the command's `valid_from`). -/
structure Sched where
  setpoint : SetpointCommand
  climate_entity_id : String
  fire_at : Int
  deriving Repr, DecidableEq

/-- Mutable state of `SmartHeatingMQTTHandler`. -/
structure MqttHandler where
  zones : List (String × ZoneConfig)
  pending_setpoints : List (String × SetpointCommand)
  scheduled : List (String × Sched)
  applied_setpoints : List (String × SetpointCommand)
  deriving Repr, DecidableEq

/-- Embedding of `SmartHeatingMQTTHandler._apply_setpoint`: look the climate
entity up (missing → log and return), call `climate.set_temperature`
(raises → caught, log and return with no state change), then record the
applied setpoint, drop the pending entry and fire the bus event. -/
def MqttHandler.apply_setpoint (h : MqttHandler) (env : Env) (zone_id : String)
    (setpoint : SetpointCommand) (climate_entity_id : String) :
    MqttHandler × Env × List Action :=
  match env.getState climate_entity_id with
  | none => (h, env, [])
  | some _ =>
    if env.writeFails.contains climate_entity_id then (h, env, [])
    else
      let env1 := env.write climate_entity_id setpoint.temperature_c
      let h1 := { h with
        applied_setpoints := insertA h.applied_setpoints zone_id setpoint,
        pending_setpoints := removeA h.pending_setpoints zone_id }
      (h1, env1,
        [Action.write climate_entity_id setpoint.temperature_c,
         Action.event zone_id setpoint.temperature_c])

/-- Embedding of `SmartHeatingMQTTHandler._schedule_setpoint`: cancel any
existing timer for the zone, then arm a timer at the command's
`valid_from` (`insertA` replaces the previous entry, which models
cancel-then-arm). -/
def MqttHandler.schedule_setpoint (h : MqttHandler) (zone_id : String)
    (setpoint : SetpointCommand) (climate_entity_id : String) : MqttHandler :=
  match setpoint.valid_from with
  | none => h
  | some vf =>
    { h with scheduled :=
        insertA h.scheduled zone_id ⟨setpoint, climate_entity_id, vf⟩ }

/-- Embedding of `SmartHeatingMQTTHandler._process_setpoint`: store the
command as pending, then apply it if valid now, else schedule it when it
has a `valid_from`. -/
def MqttHandler.process_setpoint (h : MqttHandler) (env : Env) (now : Int)
    (zone_id : String) (setpoint : SetpointCommand)
    (zone_config : ZoneConfig) : MqttHandler × Env × List Action :=
  match zone_config.climate_entity_id with
  | none => (h, env, [])
  | some climate_entity_id =>
    let h1 := { h with
      pending_setpoints := insertA h.pending_setpoints zone_id setpoint }
    if setpoint.is_valid_now now then
      h1.apply_setpoint env zone_id setpoint climate_entity_id
    else if setpoint.valid_from.isSome then
      (h1.schedule_setpoint zone_id setpoint climate_entity_id, env, [])
    else (h1, env, [])

/-- Embedding of `SmartHeatingMQTTHandler._handle_setpoint_message` after
topic parsing: build the command from the payload (an exception escaping
the constructor is caught by the handler's outer `except Exception`,
which logs and discards the message), look the zone up (unknown →
discard), reject when auto-control is disabled, else process. -/
def MqttHandler.handle_setpoint_message (h : MqttHandler) (env : Env)
    (now : Int) (parseIso : String → Option Int) (zone_id : String)
    (payload : RawPayload) : MqttHandler × Env × List Action :=
  match SetpointCommand.ofData parseIso payload with
  | .error _ => (h, env, [])
  | .ok sp0 =>
    let setpoint := { sp0 with zone_id := some zone_id }
    match lookupA h.zones zone_id with
    | none => (h, env, [])
    | some zone_config =>
      if !(zone_config.auto_control.getD true) then (h, env, [])
      else h.process_setpoint env now zone_id setpoint zone_config

/-- Embedding of the `apply_scheduled_setpoint` timer callback inside
`_schedule_setpoint`: when the timer for `zone_id` fires, the captured
command is handed to `_apply_setpoint` and the timer entry is removed. The
callback receives the firing time (`now`) but never reads it. -/
def MqttHandler.fire_scheduled (h : MqttHandler) (env : Env) (now : Int)
    (zone_id : String) : MqttHandler × Env × List Action :=
  let _ := now
  match lookupA h.scheduled zone_id with
  | none => (h, env, [])
  | some s =>
    let r := h.apply_setpoint env zone_id s.setpoint s.climate_entity_id
    ({ r.1 with scheduled := removeA r.1.scheduled zone_id }, r.2.1, r.2.2)

/-! ### Poll channel and overrides (`__init__.py`, `SmartHeatingCoordinator`) -/

/-- One zone dict as returned by the remote API and stored in
`coordinator._zones`; optional fields model missing dict keys. -/
structure ZoneData where
  id : String
  climate_entity_id : Option String
  temperature_entity_id : Option String
  auto_control_enabled : Option Bool
  min_temp_c : Option ℚ
  target_temp_c : Option ℚ
  deriving Repr, DecidableEq

/-- One pending-setpoint dict from the telemetry response, restricted to
the keys the coordinator reads. -/
structure PollSetpoint where
  zone_id : Option String
  temperature_c : Option ℚ
  reason : Option String
  expected_savings_sek : Option ℚ
  command_id : Option String
  deriving Repr, DecidableEq

/-- Response of a successful `client.send_telemetry` call.
`next_poll_seconds` is the server-suggested next-poll interval; the
coordinator never reads it. -/
structure TelemetryResult where
  spot_price : Option ℚ
  pending_setpoints : List PollSetpoint
  next_poll_seconds : Option Int
  deriving Repr, DecidableEq

/-- Mutable state of `SmartHeatingCoordinator`. `telemetry_interval` is
the period of the timer armed by `start_telemetry_sender`. -/
structure Coordinator where
  zones : List ZoneData
  spot_price : Option ℚ
  applied_setpoints : List (String × PollSetpoint)
  boost_until : List (String × Int)
  away_mode : Bool
  away_mode_since : Option Int
  saved_setpoints : List (String × ℚ)
  telemetry_interval : Int
  deriving Repr, DecidableEq

/-- Fixed telemetry period from `const.py` (`TELEMETRY_INTERVAL = 300`). -/
def TELEMETRY_INTERVAL : Int := 300

/-- Embedding of `start_telemetry_sender`: arms the periodic timer with
the constant `TELEMETRY_INTERVAL`. -/
def Coordinator.start_telemetry_sender (c : Coordinator) : Coordinator :=
  { c with telemetry_interval := TELEMETRY_INTERVAL }

/-- Embedding of `SmartHeatingCoordinator.is_boosted`. -/
def Coordinator.is_boosted (c : Coordinator) (now : Int) (zone_id : String) :
    Bool :=
  match lookupA c.boost_until zone_id with
  | none => false
  | some bu => decide (now < bu)

/-- Embedding of `SmartHeatingCoordinator._apply_setpoint` (the poll-path
apply): guard chain — zone id present, zone found, auto-control enabled,
not boosted, climate entity configured, temperature present, entity
exists — then the write, recording the applied setpoint and the event. -/
def Coordinator.apply_setpoint (c : Coordinator) (env : Env) (now : Int)
    (setpoint : PollSetpoint) : Coordinator × Env × List Action :=
  match setpoint.zone_id with
  | none => (c, env, [])
  | some zone_id =>
    match c.zones.find? (fun z => z.id == zone_id) with
    | none => (c, env, [])
    | some zone =>
      if !(zone.auto_control_enabled.getD true) then (c, env, [])
      else if c.is_boosted now zone_id then (c, env, [])
      else
        match zone.climate_entity_id with
        | none => (c, env, [])
        | some climate_entity_id =>
          match setpoint.temperature_c with
          | none => (c, env, [])
          | some temperature =>
            match env.getState climate_entity_id with
            | none => (c, env, [])
            | some _ =>
              if env.writeFails.contains climate_entity_id then (c, env, [])
              else
                let env1 := env.write climate_entity_id temperature
                ({ c with applied_setpoints :=
                    insertA c.applied_setpoints zone_id setpoint },
                 env1,
                 [Action.write climate_entity_id temperature,
                  Action.event zone_id temperature])

/-- The `for setpoint in pending_setpoints` loop of
`async_send_telemetry`. -/
def Coordinator.apply_pending (c : Coordinator) (env : Env) (now : Int) :
    List PollSetpoint → Coordinator × Env × List Action
  | [] => (c, env, [])
  | sp :: rest =>
    let r1 := c.apply_setpoint env now sp
    let r2 := Coordinator.apply_pending r1.1 r1.2.1 now rest
    (r2.1, r2.2.1, r1.2.2 ++ r2.2.2)

/-- Embedding of `_collect_zone_telemetry`, restricted to whether a zone
contributes telemetry: it does iff it has a temperature entity whose state
parses to a float (that float stands in for the telemetry record). -/
def Coordinator.collect_zone_telemetry (env : Env) (zone : ZoneData) :
    Option ℚ :=
  match zone.temperature_entity_id with
  | none => none
  | some te =>
    match Env.getState env te with
    | none => none
    | some st => st.stateVal

/-- Embedding of `async_send_telemetry`, one poll cycle: skip when no
zones or no collectable telemetry; `fetch = none` models
`client.send_telemetry` raising `SmartHeatingAPIError` (logged, nothing
else happens); on success, update the spot price and apply each pending
setpoint. No acknowledgment call appears in the source, and the timer
period is never touched. -/
def Coordinator.send_telemetry (c : Coordinator) (env : Env) (now : Int)
    (fetch : Option TelemetryResult) : Coordinator × Env × List Action :=
  if c.zones.isEmpty then (c, env, [])
  else
    let zone_telemetry := c.zones.filterMap (Coordinator.collect_zone_telemetry env)
    if zone_telemetry.isEmpty then (c, env, [])
    else
      match fetch with
      | none => (c, env, [Action.apiTelemetry])
      | some result =>
        let c1 :=
          match result.spot_price with
          | some sp => { c with spot_price := some sp }
          | none => c
        let r := c1.apply_pending env now result.pending_setpoints
        (r.1, r.2.1, Action.apiTelemetry :: r.2.2)

/-- The `for zone in zones_to_boost` loop of `async_boost_zone`: zones
without a climate entity or without a state are skipped; the current
`temperature` attribute (default 20) plus the increase is written; on a
successful write the zone's boost expiry becomes `now + duration`. -/
def boostLoop (env : Env) (now : Int) (duration_minutes : Int)
    (temp_increase : ℚ) (bu : List (String × Int)) :
    List ZoneData → Env × List (String × Int) × List Action
  | [] => (env, bu, [])
  | zone :: rest =>
    match zone.climate_entity_id with
    | none => boostLoop env now duration_minutes temp_increase bu rest
    | some e =>
      match env.getState e with
      | none => boostLoop env now duration_minutes temp_increase bu rest
      | some st =>
        let boost_temp := st.temperature.getD 20 + temp_increase
        if env.writeFails.contains e then
          boostLoop env now duration_minutes temp_increase bu rest
        else
          let env1 := env.write e boost_temp
          let bu1 := insertA bu zone.id (now + duration_minutes * 60)
          let r := boostLoop env1 now duration_minutes temp_increase bu1 rest
          (r.1, r.2.1, Action.write e boost_temp :: r.2.2)

/-- The `zones_to_boost` selection of `async_boost_zone`: `zone_id = none`
targets all zones (`zone_id` falsy in the source), otherwise the first
zone with that id. -/
def Coordinator.zones_to_boost (c : Coordinator) (zone_id : Option String) :
    List ZoneData :=
  match zone_id with
  | some zid => (c.zones.find? (fun z => z.id == zid)).toList
  | none => c.zones

/-- Embedding of `async_boost_zone`: run the boost loop over the selected
zones. Durations are minutes in the source (`timedelta(minutes=...)`),
converted here to seconds. -/
def Coordinator.boost_zone (c : Coordinator) (env : Env) (now : Int)
    (zone_id : Option String) (duration_minutes : Int) (temp_increase : ℚ) :
    Coordinator × Env × List Action :=
  let r := boostLoop env now duration_minutes temp_increase c.boost_until
    (c.zones_to_boost zone_id)
  ({ c with boost_until := r.2.1 }, r.1, r.2.2)

/-- The enable loop of `async_set_away_mode`: per zone, snapshot the
current `temperature` attribute when readable, then write the zone's
minimum temperature (default 16); a failed write keeps the snapshot
entry. -/
def awayEnableLoop (env : Env) (saved : List (String × ℚ)) :
    List ZoneData → Env × List (String × ℚ) × List Action
  | [] => (env, saved, [])
  | zone :: rest =>
    match zone.climate_entity_id with
    | none => awayEnableLoop env saved rest
    | some e =>
      let saved1 :=
        match env.getState e with
        | none => saved
        | some st =>
          match st.temperature with
          | none => saved
          | some t => insertA saved zone.id t
      let min_temp := zone.min_temp_c.getD 16
      if (env.getState e).isSome && !(env.writeFails.contains e) then
        let env1 := env.write e min_temp
        let r := awayEnableLoop env1 saved1 rest
        (r.1, r.2.1, Action.write e min_temp :: r.2.2)
      else
        awayEnableLoop env saved1 rest

/-- The disable loop of `async_set_away_mode`: per zone, write the saved
snapshot value, falling back to the zone's target temperature (default
20). -/
def awayDisableLoop (env : Env) (saved : List (String × ℚ)) :
    List ZoneData → Env × List Action
  | [] => (env, [])
  | zone :: rest =>
    match zone.climate_entity_id with
    | none => awayDisableLoop env saved rest
    | some e =>
      let restore_temp :=
        (lookupA saved zone.id).getD (zone.target_temp_c.getD 20)
      if (env.getState e).isSome && !(env.writeFails.contains e) then
        let env1 := env.write e restore_temp
        let r := awayDisableLoop env1 saved rest
        (r.1, Action.write e restore_temp :: r.2)
      else
        awayDisableLoop env saved rest

/-- Embedding of `async_set_away_mode`: enabling when already enabled and
disabling when already disabled are no-ops; enabling snapshots and writes
minimums; disabling restores and clears the snapshot. -/
def Coordinator.set_away_mode (c : Coordinator) (env : Env) (now : Int)
    (enabled : Bool) : Coordinator × Env × List Action :=
  if enabled && !c.away_mode then
    let r := awayEnableLoop env [] c.zones
    ({ c with away_mode := true, away_mode_since := some now,
              saved_setpoints := r.2.1 }, r.1, r.2.2)
  else if !enabled && c.away_mode then
    let r := awayDisableLoop env c.saved_setpoints c.zones
    ({ c with away_mode := false, away_mode_since := none,
              saved_setpoints := [] }, r.1, r.2)
  else (c, env, [])

/-! ### Concrete fixtures for counterexamples and witnesses -/

/-- Recognizer for acknowledgment calls in an action trace. -/
def isAckAction : Action → Bool
  | Action.apiAcknowledge _ _ _ => true
  | _ => false

/-- Concrete stand-in for `datetime.fromisoformat`: parses the single
string "t100" to time 100. -/
def parseIsoFix : String → Option Int :=
  fun s => if s == "t100" then some 100 else none

/-- Push payload A: 21 degrees, valid from time 100. -/
def payloadA : RawPayload :=
  { temperature_c := some 21, valid_from := JsonVal.jstr "t100",
    valid_until := JsonVal.jnull, reason := none,
    expected_savings_sek := none, zone_id := none }

/-- Push payload B: 22 degrees, no validity window (valid immediately). -/
def payloadB : RawPayload :=
  { temperature_c := some 22, valid_from := JsonVal.jnull,
    valid_until := JsonVal.jnull, reason := none,
    expected_savings_sek := none, zone_id := none }

/-- Push payload whose `valid_from` is the JSON number 123: truthy and
not a string, so construction raises. -/
def payloadBadTs : RawPayload :=
  { temperature_c := some 21, valid_from := JsonVal.jnum 123,
    valid_until := JsonVal.jnull, reason := none,
    expected_savings_sek := none, zone_id := none }

/-- Push payload with a missing temperature and an unparseable timestamp
string. -/
def payloadGarbage : RawPayload :=
  { temperature_c := none, valid_from := JsonVal.jstr "garbage",
    valid_until := JsonVal.jnull, reason := none,
    expected_savings_sek := none, zone_id := some "z1" }

/-- The command `payloadGarbage` constructs (with a parser that rejects
every string). -/
def cmdGarbage : SetpointCommand :=
  { temperature_c := 20, valid_from := none, valid_until := none,
    reason := "optimization", expected_savings_sek := 0,
    zone_id := some "z1" }

/-- The command payload A parses to, tagged with zone "z1". -/
def cmdA : SetpointCommand :=
  { temperature_c := 21, valid_from := some 100, valid_until := none,
    reason := "optimization", expected_savings_sek := 0, zone_id := some "z1" }

/-- The command payload B parses to, tagged with zone "z1". -/
def cmdB : SetpointCommand :=
  { temperature_c := 22, valid_from := none, valid_until := none,
    reason := "optimization", expected_savings_sek := 0, zone_id := some "z1" }

/-- A command whose validity window ended at time 50. -/
def cmdExp : SetpointCommand :=
  { temperature_c := 23, valid_from := some 30, valid_until := some 50,
    reason := "optimization", expected_savings_sek := 0, zone_id := some "z1" }

/-- Environment with one climate entity at 19 degrees. -/
def envZ1 : Env := ⟨[("climate.z1", ⟨none, some 19⟩)], []⟩

/-- MQTT handler knowing zone "z1" (auto-control key absent, so on). -/
def handlerZ1 : MqttHandler :=
  ⟨[("z1", ⟨some "climate.z1", none⟩)], [], [], []⟩

/-- MQTT handler with `cmdExp` pending and its timer armed for time 30. -/
def handlerExp : MqttHandler :=
  ⟨[("z1", ⟨some "climate.z1", none⟩)], [("z1", cmdExp)],
   [("z1", ⟨cmdExp, "climate.z1", 30⟩)], []⟩

/-- Zone dict "z1" as the coordinator stores it. -/
def zoneD1 : ZoneData :=
  { id := "z1", climate_entity_id := some "climate.z1",
    temperature_entity_id := some "sensor.t1",
    auto_control_enabled := some true, min_temp_c := some 16,
    target_temp_c := some 20 }

/-- Coordinator with zone "z1" boosted until time 1000. -/
def coordBoosted : Coordinator :=
  { zones := [zoneD1], spot_price := none, applied_setpoints := [],
    boost_until := [("z1", 1000)], away_mode := false,
    away_mode_since := none, saved_setpoints := [],
    telemetry_interval := 300 }

/-- Coordinator with zone "z1", no boost, telemetry timer armed. -/
def coordPoll : Coordinator :=
  { zones := [zoneD1], spot_price := none, applied_setpoints := [],
    boost_until := [], away_mode := false, away_mode_since := none,
    saved_setpoints := [], telemetry_interval := 300 }

/-- Environment where the telemetry sensor reads, but the climate entity
for zone "z1" does not exist (actuator unreachable). -/
def envPoll : Env := ⟨[("sensor.t1", ⟨some 20, none⟩)], []⟩

/-- Poll-path command with `command_id` "c1". -/
def pollCmdC1 : PollSetpoint :=
  { zone_id := some "z1", temperature_c := some 21, reason := none,
    expected_savings_sek := none, command_id := some "c1" }

/-- Telemetry response delivering `pollCmdC1`. -/
def fetchC1 : TelemetryResult :=
  { spot_price := none, pending_setpoints := [pollCmdC1],
    next_poll_seconds := none }

/-- Zone config with auto-control explicitly disabled (push side). -/
def zoneOff : ZoneConfig := ⟨some "climate.z1", some false⟩

/-- MQTT handler whose zone "z1" has auto-control disabled. -/
def handlerOff : MqttHandler := ⟨[("z1", zoneOff)], [], [], []⟩

/-- Zone dict with auto-control disabled (poll side). -/
def zoneD1Off : ZoneData := { zoneD1 with auto_control_enabled := some false }

/-- Coordinator whose zone "z1" has auto-control disabled. -/
def coordOff : Coordinator := { coordPoll with zones := [zoneD1Off] }

/-- A second zone whose climate entity has no readable temperature
attribute (so away mode cannot snapshot it). -/
def zoneB : ZoneData :=
  { id := "z2", climate_entity_id := some "climate.z2",
    temperature_entity_id := none, auto_control_enabled := some true,
    min_temp_c := some 16, target_temp_c := some 20 }

/-- Coordinator with a snapshotable zone and a non-snapshotable zone. -/
def coordAway : Coordinator :=
  { zones := [zoneD1, zoneB], spot_price := none, applied_setpoints := [],
    boost_until := [], away_mode := false, away_mode_since := none,
    saved_setpoints := [], telemetry_interval := 300 }

/-- Environment for the away-mode round trip: zone "z1" at 18 degrees,
zone "z2" present but with no temperature attribute. -/
def envAway : Env :=
  ⟨[("climate.z1", ⟨none, some 18⟩), ("climate.z2", ⟨none, none⟩)], []⟩

/-! ### Theorems -/

/-- C6: the validity evaluation is the spec's three-way case split —
`NOT_YET_VALID` iff `valid_from` is set and the reference is before it,
`EXPIRED` iff not `NOT_YET_VALID` and `valid_until` is set and the
reference is after it, `VALID` iff `valid_from` is absent or not after the
reference and `valid_until` is absent or not before it — and the source's
`is_valid_now` is exactly the `VALID` outcome. Totality of the Lean
function witnesses that the evaluation has no failure modes. -/
theorem C6_validity_evaluator (c : SetpointCommand) (ref : Int) :
    (specValidity c ref = Validity.NOT_YET_VALID ↔
      ∃ vf, c.valid_from = some vf ∧ ref < vf)
    ∧ (specValidity c ref = Validity.EXPIRED ↔
      (∀ vf, c.valid_from = some vf → vf ≤ ref) ∧
        ∃ vu, c.valid_until = some vu ∧ vu < ref)
    ∧ (specValidity c ref = Validity.VALID ↔
      (∀ vf, c.valid_from = some vf → vf ≤ ref) ∧
        (∀ vu, c.valid_until = some vu → ref ≤ vu))
    ∧ c.is_valid_now ref = (specValidity c ref == Validity.VALID) := by
  obtain ⟨t, vf, vu, r, s, z⟩ := c
  cases vf <;> cases vu <;>
    simp only [specValidity, SetpointCommand.is_valid_now, Option.any_none,
      Option.any_some, Option.some.injEq, decide_eq_true_eq] <;>
    refine ⟨?_, ?_, ?_, ?_⟩ <;>
    split_ifs <;>
    simp_all

/-- Characterization of when `_parse_datetime` raises: exactly on a
truthy non-string value (the uncaught `AttributeError` from
`value.endswith`). -/
theorem parse_datetime_error_iff (parseIso : String → Option Int)
    (v : JsonVal) :
    (parse_datetime parseIso v = Except.error ()) ↔
      timestampFieldSafe v = false := by
  cases v with
  | jnull => simp [parse_datetime, timestampFieldSafe, JsonVal.truthy]
  | jbool b =>
    cases b <;>
      simp [parse_datetime, timestampFieldSafe, JsonVal.truthy]
  | jnum q =>
    by_cases hq : q = 0 <;>
      simp [parse_datetime, timestampFieldSafe, JsonVal.truthy, hq]
  | jstr s =>
    by_cases hs : s = "" <;>
      simp [parse_datetime, timestampFieldSafe, JsonVal.truthy, hs]

/-- C10, counterexample: a payload whose `valid_from` is the JSON number
123 (truthy, not a string) makes `SetpointCommand` construction raise —
`value.endswith` raises `AttributeError`, which `except (ValueError,
TypeError)` does not catch — and the push handler's outer
`except Exception` then discards the message with no effect. -/
theorem C10_counterexample :
    SetpointCommand.ofData parseIsoFix payloadBadTs = Except.error ()
    ∧ handlerZ1.handle_setpoint_message envZ1 0 parseIsoFix "z1"
        payloadBadTs = (handlerZ1, envZ1, []) :=
  ⟨rfl, rfl⟩

/-- C10, amended: construction of a `SetpointCommand` raises exactly when
`valid_from` or `valid_until` holds a truthy non-string JSON value (such
a push payload IS discarded); whenever both timestamp fields are strings
or falsy, construction succeeds and: a missing `temperature_c` defaults
to 20, a missing `reason` to "optimization", a falsy (absent, null,
empty) or unparseable-string timestamp becomes `none`, and a command with
both bounds `none` is valid at every reference time. -/
theorem C10_amended_construction (parseIso : String → Option Int)
    (data : RawPayload) :
    ((SetpointCommand.ofData parseIso data = Except.error ()) ↔
      (timestampFieldSafe data.valid_from = false ∨
       timestampFieldSafe data.valid_until = false))
    ∧ (∀ c, SetpointCommand.ofData parseIso data = Except.ok c →
      c.temperature_c = data.temperature_c.getD 20
      ∧ (data.temperature_c = none → c.temperature_c = 20)
      ∧ c.reason = data.reason.getD "optimization"
      ∧ (data.valid_from.truthy = false → c.valid_from = none)
      ∧ (∀ s, data.valid_from = JsonVal.jstr s → s ≠ "" →
          parseIso (if s.data.getLast? == some 'Z'
            then String.mk s.data.dropLast ++ "+00:00" else s) = none →
          c.valid_from = none)
      ∧ (data.valid_until.truthy = false → c.valid_until = none)
      ∧ (∀ s, data.valid_until = JsonVal.jstr s → s ≠ "" →
          parseIso (if s.data.getLast? == some 'Z'
            then String.mk s.data.dropLast ++ "+00:00" else s) = none →
          c.valid_until = none)
      ∧ (c.valid_from = none → c.valid_until = none →
          ∀ now, c.is_valid_now now = true)) := by
  cases hf : parse_datetime parseIso data.valid_from with
  | error e =>
    cases e
    refine ⟨⟨fun _ => Or.inl ((parse_datetime_error_iff parseIso
      data.valid_from).mp hf), fun _ => ?_⟩, fun c hc => ?_⟩
    · simp only [SetpointCommand.ofData, hf]
    · simp only [SetpointCommand.ofData, hf] at hc
      exact absurd hc (by simp)
  | ok vf =>
    cases hu : parse_datetime parseIso data.valid_until with
    | error e =>
      cases e
      refine ⟨⟨fun _ => Or.inr ((parse_datetime_error_iff parseIso
        data.valid_until).mp hu), fun _ => ?_⟩, fun c hc => ?_⟩
      · simp only [SetpointCommand.ofData, hf, hu]
      · simp only [SetpointCommand.ofData, hf, hu] at hc
        exact absurd hc (by simp)
    | ok vu =>
      have hsf : timestampFieldSafe data.valid_from = true := by
        cases hb : timestampFieldSafe data.valid_from with
        | true => rfl
        | false =>
          have herr := (parse_datetime_error_iff parseIso
            data.valid_from).mpr hb
          rw [hf] at herr
          exact absurd herr (by simp)
      have hsu : timestampFieldSafe data.valid_until = true := by
        cases hb : timestampFieldSafe data.valid_until with
        | true => rfl
        | false =>
          have herr := (parse_datetime_error_iff parseIso
            data.valid_until).mpr hb
          rw [hu] at herr
          exact absurd herr (by simp)
      constructor
      · simp only [SetpointCommand.ofData, hf, hu]
        simp [hsf, hsu]
      · intro c hc
        simp only [SetpointCommand.ofData, hf, hu] at hc
        injection hc with hcr
        subst hcr
        refine ⟨rfl, ?_, rfl, ?_, ?_, ?_, ?_, ?_⟩
        · intro h
          simp [h]
        · intro htr
          have hok : parse_datetime parseIso data.valid_from =
              Except.ok none := by
            simp [parse_datetime, htr]
          rw [hf] at hok
          simpa using hok
        · intro s hs hne hparse
          have htr : (JsonVal.jstr s).truthy = true := by
            simp [JsonVal.truthy, hne]
          have hok : parse_datetime parseIso data.valid_from =
              Except.ok none := by
            rw [hs]
            simp [parse_datetime, htr]
            simpa using hparse
          rw [hf] at hok
          simpa using hok
        · intro htr
          have hok : parse_datetime parseIso data.valid_until =
              Except.ok none := by
            simp [parse_datetime, htr]
          rw [hu] at hok
          simpa using hok
        · intro s hs hne hparse
          have htr : (JsonVal.jstr s).truthy = true := by
            simp [JsonVal.truthy, hne]
          have hok : parse_datetime parseIso data.valid_until =
              Except.ok none := by
            rw [hs]
            simp [parse_datetime, htr]
            simpa using hparse
          rw [hu] at hok
          simpa using hok
        · intro h1 h2 now
          simp only at h1 h2
          simp [SetpointCommand.is_valid_now, h1, h2, Option.any]

/-- Witness for `C10_amended_construction`: the payload with a missing
temperature and the unparseable timestamp string "garbage" constructs
successfully and its `valid_from` is `none`. -/
theorem C10_amended_construction_witness :
    cmdGarbage.valid_from = none :=
  ((C10_amended_construction (fun _ => none) payloadGarbage).2 cmdGarbage
    rfl).2.2.2.2.1 "garbage" rfl (by decide) rfl

/-- The push-path apply step never touches the scheduled-timer map. -/
theorem apply_setpoint_scheduled_eq (h : MqttHandler) (env : Env)
    (zone_id : String) (sp : SetpointCommand) (e : String) :
    (h.apply_setpoint env zone_id sp e).1.scheduled = h.scheduled := by
  unfold MqttHandler.apply_setpoint
  cases env.getState e <;> simp
  split_ifs <;> simp

/-- C1, counterexample: command A (valid from time 100) is scheduled for
zone "z1"; command B (valid now) arrives at time 10, before A's timer
fires. B is applied — but A's timer is NOT canceled: it is still armed
after B, and at time 100 it fires and applies A, overwriting B. -/
theorem C1_counterexample :
    (let r1 := handlerZ1.handle_setpoint_message envZ1 0 parseIsoFix "z1"
        payloadA
     let r2 := r1.1.handle_setpoint_message r1.2.1 10 parseIsoFix "z1"
        payloadB
     let r3 := r2.1.fire_scheduled r2.2.1 100 "z1"
     lookupA r1.1.scheduled "z1" = some ⟨cmdA, "climate.z1", 100⟩
     ∧ lookupA r2.1.applied_setpoints "z1" = some cmdB
     ∧ lookupA r2.1.scheduled "z1" = some ⟨cmdA, "climate.z1", 100⟩
     ∧ lookupA r3.1.applied_setpoints "z1" = some cmdA
     ∧ lookupA r3.2.1.entities "climate.z1" = some ⟨none, some 21⟩) := by
  decide

/-- C1, amended: when an immediately-valid command B arrives for a zone
with a scheduled command A, B is applied at once but A's timer is NOT
canceled — the scheduled-timer map is unchanged, so A still fires at its
`valid_from` (and then overwrites B). A scheduled timer is canceled only
when it is replaced by a newly arriving not-yet-valid command. -/
theorem C1_amended_valid_now_keeps_timer (h : MqttHandler) (env : Env)
    (now : Int) (zone_id : String) (sp : SetpointCommand) (zc : ZoneConfig)
    (e : String) (hvalid : sp.is_valid_now now = true)
    (he : zc.climate_entity_id = some e)
    (hst : (env.getState e).isSome = true)
    (hwf : env.writeFails.contains e = false) :
    (h.process_setpoint env now zone_id sp zc).1.scheduled = h.scheduled
    ∧ lookupA (h.process_setpoint env now zone_id sp zc).1.applied_setpoints
        zone_id = some sp := by
  have hwf' : e ∉ env.writeFails := by simpa using hwf
  simp only [MqttHandler.process_setpoint, he, hvalid, if_true]
  constructor
  · exact apply_setpoint_scheduled_eq _ _ _ _ _
  · obtain ⟨st, hget⟩ := Option.isSome_iff_exists.mp hst
    simp only [MqttHandler.apply_setpoint, hget]
    simp [hwf', lookupA_insertA_self]

/-- Witness for `C1_amended_valid_now_keeps_timer`: concrete zone "z1"
with an armed timer for `cmdExp`, receiving the immediately-valid
`cmdB`. -/
theorem C1_amended_valid_now_keeps_timer_witness :
    (handlerExp.process_setpoint envZ1 10 "z1" cmdB
        ⟨some "climate.z1", none⟩).1.scheduled = handlerExp.scheduled
    ∧ lookupA (handlerExp.process_setpoint envZ1 10 "z1" cmdB
        ⟨some "climate.z1", none⟩).1.applied_setpoints "z1" = some cmdB :=
  C1_amended_valid_now_keeps_timer handlerExp envZ1 10 "z1" cmdB
    ⟨some "climate.z1", none⟩ "climate.z1" (by decide) rfl (by decide)
    (by decide)

/-- C2, counterexample: zone "z1" is boosted (now = 10 < boost_until =
1000), yet a push-channel command arriving at time 10 is applied: the
push handler (`SmartHeatingMQTTHandler`) holds no reference to the
coordinator's `_boost_until` state and never consults it. -/
theorem C2_counterexample :
    coordBoosted.is_boosted 10 "z1" = true
    ∧ (let r := handlerZ1.handle_setpoint_message envZ1 10 parseIsoFix "z1"
        payloadB
       lookupA r.1.applied_setpoints "z1" = some cmdB
       ∧ r.2.2 = [Action.write "climate.z1" 22, Action.event "z1" 22]) := by
  decide

/-- C2, amended: boost blocks only poll-path commands: the coordinator's
apply step drops a command for a boosted zone with no state change, no
write and no event; push-path commands do not consult boost state and are
applied or scheduled normally. -/
theorem C2_amended_boost_blocks_poll_only (c : Coordinator) (env : Env)
    (now : Int) (sp : PollSetpoint) (zone_id : String)
    (hz : sp.zone_id = some zone_id)
    (hboost : c.is_boosted now zone_id = true) :
    c.apply_setpoint env now sp = (c, env, []) := by
  simp only [Coordinator.apply_setpoint, hz]
  cases hfind : c.zones.find? (fun z => z.id == zone_id) with
  | none => simp [hfind]
  | some zone =>
    by_cases hauto : zone.auto_control_enabled.getD true
    · simp [hfind, hauto, hboost]
    · simp [hfind, hauto]

/-- Witness for `C2_amended_boost_blocks_poll_only`: the boosted
coordinator drops the poll command `pollCmdC1`. -/
theorem C2_amended_boost_blocks_poll_only_witness :
    coordBoosted.apply_setpoint envPoll 10 pollCmdC1 =
      (coordBoosted, envPoll, []) :=
  C2_amended_boost_blocks_poll_only coordBoosted envPoll 10 pollCmdC1 "z1"
    rfl (by decide)

/-- C3, counterexample: `cmdExp` expired at time 50, but when its timer
fires at time 100 the callback hands it straight to the apply step with
no re-validation: the expired command is written and recorded. -/
theorem C3_counterexample :
    cmdExp.is_valid_now 100 = false
    ∧ (let r := handlerExp.fire_scheduled envZ1 100 "z1"
       lookupA r.1.applied_setpoints "z1" = some cmdExp
       ∧ r.2.2 = [Action.write "climate.z1" 23, Action.event "z1" 23]) := by
  decide

/-- C3, amended: when a zone's timer fires, the captured command is
applied unconditionally — validity is NOT re-evaluated at firing time.
Whatever `now` is, and in particular when the command has expired, the
command is written, recorded as applied and the timer entry removed
(provided the climate entity exists and the write succeeds). -/
theorem C3_amended_fire_applies_unconditionally (h : MqttHandler) (env : Env)
    (now : Int) (zone_id : String) (s : Sched)
    (hs : lookupA h.scheduled zone_id = some s)
    (hst : (env.getState s.climate_entity_id).isSome = true)
    (hwf : env.writeFails.contains s.climate_entity_id = false) :
    lookupA (h.fire_scheduled env now zone_id).1.applied_setpoints zone_id =
      some s.setpoint
    ∧ (h.fire_scheduled env now zone_id).2.2 =
      [Action.write s.climate_entity_id s.setpoint.temperature_c,
       Action.event zone_id s.setpoint.temperature_c]
    ∧ lookupA (h.fire_scheduled env now zone_id).1.scheduled zone_id =
      none := by
  obtain ⟨st, hget⟩ := Option.isSome_iff_exists.mp hst
  have hwf' : s.climate_entity_id ∉ env.writeFails := by simpa using hwf
  simp only [MqttHandler.fire_scheduled, hs]
  simp only [MqttHandler.apply_setpoint, hget]
  simp [hwf', lookupA_insertA_self, lookupA_removeA_self]

/-- Witness for `C3_amended_fire_applies_unconditionally`: the timer for
the expired `cmdExp` fires at time 100 and the command is applied. -/
theorem C3_amended_fire_applies_unconditionally_witness :
    lookupA (handlerExp.fire_scheduled envZ1 100 "z1").1.applied_setpoints
      "z1" = some cmdExp
    ∧ (handlerExp.fire_scheduled envZ1 100 "z1").2.2 =
      [Action.write "climate.z1" 23, Action.event "z1" 23]
    ∧ lookupA (handlerExp.fire_scheduled envZ1 100 "z1").1.scheduled "z1" =
      none :=
  C3_amended_fire_applies_unconditionally handlerExp envZ1 100 "z1"
    ⟨cmdExp, "climate.z1", 30⟩ rfl (by decide) (by decide)

/-- The poll-path apply step emits no acknowledgment call in any branch. -/
theorem coord_apply_setpoint_no_ack (c : Coordinator) (env : Env) (now : Int)
    (sp : PollSetpoint) :
    (c.apply_setpoint env now sp).2.2.countP isAckAction = 0 := by
  unfold Coordinator.apply_setpoint
  repeat' split
  all_goals simp [isAckAction]

/-- The poll-path apply step never changes the telemetry timer period. -/
theorem coord_apply_setpoint_interval (c : Coordinator) (env : Env)
    (now : Int) (sp : PollSetpoint) :
    (c.apply_setpoint env now sp).1.telemetry_interval =
      c.telemetry_interval := by
  unfold Coordinator.apply_setpoint
  repeat' split
  all_goals rfl

/-- The pending-setpoint loop emits no acknowledgment call. -/
theorem coord_apply_pending_no_ack (now : Int) (sps : List PollSetpoint) :
    ∀ (c : Coordinator) (env : Env),
    (Coordinator.apply_pending c env now sps).2.2.countP isAckAction = 0 := by
  induction sps with
  | nil => intro c env; rfl
  | cons sp rest ih =>
    intro c env
    simp only [Coordinator.apply_pending, List.countP_append]
    rw [coord_apply_setpoint_no_ack, ih]

/-- The pending-setpoint loop never changes the telemetry timer period. -/
theorem coord_apply_pending_interval (now : Int) (sps : List PollSetpoint) :
    ∀ (c : Coordinator) (env : Env),
    (Coordinator.apply_pending c env now sps).1.telemetry_interval =
      c.telemetry_interval := by
  induction sps with
  | nil => intro c env; rfl
  | cons sp rest ih =>
    intro c env
    simp only [Coordinator.apply_pending]
    rw [ih, coord_apply_setpoint_interval]

/-- C4, counterexample: the poll cycle fetches `pollCmdC1`
(`command_id = "c1"`); its apply fails because the climate entity is
absent (actuator unreachable) — yet the cycle's action trace contains
zero acknowledgment calls, not exactly one: `async_send_telemetry` and
`_apply_setpoint` never invoke `acknowledge_setpoint`. -/
theorem C4_counterexample :
    (let r := coordPoll.send_telemetry envPoll 0 (some fetchC1)
     lookupA r.1.applied_setpoints "z1" = none
     ∧ r.2.2.countP isAckAction = 0) := by
  decide

/-- C4, amended: no acknowledgment is ever sent on the poll path: for
every coordinator state, environment and fetch outcome, the poll cycle's
action trace contains no acknowledge call; an apply failure is only
logged. (`acknowledge_setpoint` exists on the API client but has no
caller.) -/
theorem C4_amended_no_ack_ever (c : Coordinator) (env : Env) (now : Int)
    (fetch : Option TelemetryResult) :
    (c.send_telemetry env now fetch).2.2.countP isAckAction = 0 := by
  unfold Coordinator.send_telemetry
  by_cases h1 : c.zones.isEmpty = true
  · simp [h1]
  · simp only [h1, Bool.false_eq_true, if_false]
    by_cases h2 : (c.zones.filterMap
        (Coordinator.collect_zone_telemetry env)).isEmpty = true
    · simp [h2]
    · simp only [h2, Bool.false_eq_true, if_false]
      cases fetch with
      | none => simp [isAckAction]
      | some result =>
        cases hsp : result.spot_price <;>
          simp [hsp, isAckAction, List.countP_cons,
            coord_apply_pending_no_ack]

/-- C5, counterexample: a successful poll fetch whose response suggests a
next-poll interval of 600 seconds leaves the polling period at the fixed
300 seconds: the server-suggested value is never read. -/
theorem C5_counterexample :
    (coordPoll.send_telemetry envPoll 0
        (some { spot_price := none, pending_setpoints := [],
                next_poll_seconds := some 600 })).1.telemetry_interval = 300
    ∧ (300 : Int) ≠ 600 := by
  decide

/-- C5, amended: the polling period is the fixed constant
`TELEMETRY_INTERVAL` (300 s) armed by `start_telemetry_sender`, and a poll
cycle never changes it — neither after a successful fetch (the response's
`next_poll_seconds` is ignored) nor after a failed one, so the next poll
always occurs at the previously scheduled time. -/
theorem C5_amended_interval_fixed (c : Coordinator) (env : Env) (now : Int)
    (fetch : Option TelemetryResult) :
    (c.send_telemetry env now fetch).1.telemetry_interval =
      c.telemetry_interval
    ∧ (Coordinator.start_telemetry_sender c).telemetry_interval =
      TELEMETRY_INTERVAL := by
  refine ⟨?_, rfl⟩
  unfold Coordinator.send_telemetry
  by_cases h1 : c.zones.isEmpty = true
  · simp [h1]
  · simp only [h1, Bool.false_eq_true, if_false]
    by_cases h2 : (c.zones.filterMap
        (Coordinator.collect_zone_telemetry env)).isEmpty = true
    · simp [h2]
    · simp only [h2, Bool.false_eq_true, if_false]
      cases fetch with
      | none => rfl
      | some result =>
        cases hsp : result.spot_price <;>
          simp [hsp, coord_apply_pending_interval]

/-- C7: a zone with auto-control set to false rejects every incoming
command with no state change, no write and no event, regardless of the
command's validity: the push handler drops it before processing, and the
poll-path apply returns before reaching the actuator write. -/
theorem C7_auto_control_rejects (now : Int) :
    (∀ (h : MqttHandler) (env : Env) (parseIso : String → Option Int)
        (zone_id : String) (payload : RawPayload) (zc : ZoneConfig),
      lookupA h.zones zone_id = some zc →
      zc.auto_control = some false →
      h.handle_setpoint_message env now parseIso zone_id payload =
        (h, env, []))
    ∧ (∀ (c : Coordinator) (env : Env) (sp : PollSetpoint) (zone_id : String)
        (zone : ZoneData),
      sp.zone_id = some zone_id →
      c.zones.find? (fun z => z.id == zone_id) = some zone →
      zone.auto_control_enabled = some false →
      c.apply_setpoint env now sp = (c, env, [])) := by
  constructor
  · intro h env parseIso zone_id payload zc hlook hauto
    cases hof : SetpointCommand.ofData parseIso payload with
    | error e => simp [MqttHandler.handle_setpoint_message, hof]
    | ok sp0 => simp [MqttHandler.handle_setpoint_message, hof, hlook, hauto]
  · intro c env sp zone_id zone hz hfind hauto
    simp [Coordinator.apply_setpoint, hz, hfind, hauto]

/-- Witness for `C7_auto_control_rejects`: concrete disabled zones on
both channels. -/
theorem C7_auto_control_rejects_witness :
    handlerOff.handle_setpoint_message envZ1 0 parseIsoFix "z1" payloadB =
      (handlerOff, envZ1, [])
    ∧ coordOff.apply_setpoint envPoll 0 pollCmdC1 = (coordOff, envPoll, []) :=
  ⟨(C7_auto_control_rejects 0).1 handlerOff envZ1 parseIsoFix "z1" payloadB
      zoneOff rfl rfl,
   (C7_auto_control_rejects 0).2 coordOff envPoll pollCmdC1 "z1" zoneD1Off
      rfl (by decide) rfl⟩

/-- A write never changes which service calls fail. -/
theorem write_writeFails (env : Env) (e : String) (t : ℚ) :
    (env.write e t).writeFails = env.writeFails := by
  unfold Env.write
  cases lookupA env.entities e <;> rfl

/-- A write to one entity leaves every other entity's state unchanged. -/
theorem getState_write_ne (env : Env) (e e' : String) (t : ℚ) (h : e' ≠ e) :
    (env.write e t).getState e' = env.getState e' := by
  unfold Env.write Env.getState
  cases hq : lookupA env.entities e with
  | none => rfl
  | some st => simp [lookupA_insertA_ne _ _ _ _ h]

/-- A write to an existing entity sets its temperature attribute. -/
theorem getState_write_self (env : Env) (e : String) (t : ℚ) (st : EntityState)
    (h : env.getState e = some st) :
    (env.write e t).getState e = some { st with temperature := some t } := by
  unfold Env.write Env.getState
  unfold Env.getState at h
  rw [h]
  simp [lookupA_insertA_self]

/-- The boost loop never touches the boost expiry of an id outside the
processed zone list. -/
theorem boostLoop_bu_untouched (now dur : Int) (delta : ℚ)
    (zones : List ZoneData) :
    ∀ (env : Env) (bu : List (String × Int)) (i : String),
    (∀ w ∈ zones, w.id ≠ i) →
    lookupA (boostLoop env now dur delta bu zones).2.1 i = lookupA bu i := by
  induction zones with
  | nil => intro env bu i _; rfl
  | cons w rest ih =>
    intro env bu i hw
    have hwid : w.id ≠ i := hw w (List.mem_cons_self w rest)
    have hrest : ∀ v ∈ rest, v.id ≠ i :=
      fun v hv => hw v (List.mem_cons_of_mem w hv)
    cases hce : w.climate_entity_id with
    | none =>
      simp only [boostLoop, hce]
      exact ih env bu i hrest
    | some e =>
      cases hst : env.getState e with
      | none =>
        simp only [boostLoop, hce, hst]
        exact ih env bu i hrest
      | some st =>
        by_cases hwf : env.writeFails.contains e = true
        · simp only [boostLoop, hce, hst, if_pos hwf]
          exact ih env bu i hrest
        · simp only [boostLoop, hce, hst, if_neg hwf]
          rw [ih _ _ i hrest, lookupA_insertA_ne _ _ _ _ (Ne.symm hwid)]

/-- The boost loop never touches an entity that no processed zone is
bound to. -/
theorem boostLoop_env_untouched (now dur : Int) (delta : ℚ)
    (zones : List ZoneData) :
    ∀ (env : Env) (bu : List (String × Int)) (e : String),
    (∀ w ∈ zones, w.climate_entity_id ≠ some e) →
    (boostLoop env now dur delta bu zones).1.getState e = env.getState e := by
  induction zones with
  | nil => intro env bu e _; rfl
  | cons w rest ih =>
    intro env bu e hw
    have hwe : w.climate_entity_id ≠ some e :=
      hw w (List.mem_cons_self w rest)
    have hrest : ∀ v ∈ rest, v.climate_entity_id ≠ some e :=
      fun v hv => hw v (List.mem_cons_of_mem w hv)
    cases hce : w.climate_entity_id with
    | none =>
      simp only [boostLoop, hce]
      exact ih env bu e hrest
    | some e2 =>
      cases hst : env.getState e2 with
      | none =>
        simp only [boostLoop, hce, hst]
        exact ih env bu e hrest
      | some st =>
        by_cases hwf : env.writeFails.contains e2 = true
        · simp only [boostLoop, hce, hst, if_pos hwf]
          exact ih env bu e hrest
        · simp only [boostLoop, hce, hst, if_neg hwf]
          have hne : e ≠ e2 := by
            intro hx
            exact hwe (by rw [hce, hx])
          rw [ih _ _ e hrest, getState_write_ne _ _ _ _ hne]

/-- The boost loop preserves the set of failing writes. -/
theorem boostLoop_writeFails (now dur : Int) (delta : ℚ)
    (zones : List ZoneData) :
    ∀ (env : Env) (bu : List (String × Int)),
    (boostLoop env now dur delta bu zones).1.writeFails = env.writeFails := by
  induction zones with
  | nil => intro env bu; rfl
  | cons w rest ih =>
    intro env bu
    cases hce : w.climate_entity_id with
    | none =>
      simp only [boostLoop, hce]
      exact ih env bu
    | some e =>
      cases hst : env.getState e with
      | none =>
        simp only [boostLoop, hce, hst]
        exact ih env bu
      | some st =>
        by_cases hwf : env.writeFails.contains e = true
        · simp only [boostLoop, hce, hst, if_pos hwf]
          exact ih env bu
        · simp only [boostLoop, hce, hst, if_neg hwf]
          rw [ih _ _, write_writeFails]

/-- Effect of the boost loop on a member zone with a readable, writable
climate entity: expiry set to `now + duration`, setpoint raised by the
increase. -/
theorem boostLoop_member (now dur : Int) (delta : ℚ)
    (zones : List ZoneData) :
    ∀ (env : Env) (bu : List (String × Int)) (z : ZoneData) (e : String)
      (st : EntityState) (t : ℚ),
    z ∈ zones →
    (zones.map (fun w => w.id)).Nodup →
    (zones.filterMap (fun w => w.climate_entity_id)).Nodup →
    z.climate_entity_id = some e →
    env.getState e = some st →
    st.temperature = some t →
    env.writeFails.contains e = false →
    lookupA (boostLoop env now dur delta bu zones).2.1 z.id =
      some (now + dur * 60)
    ∧ (boostLoop env now dur delta bu zones).1.getState e =
      some ⟨st.stateVal, some (t + delta)⟩ := by
  induction zones with
  | nil =>
    intro env bu z e st t hmem
    exact absurd hmem (List.not_mem_nil z)
  | cons w rest ih =>
    intro env bu z e st t hmem hids hents he hst ht hwf
    rw [List.map_cons] at hids
    have hidw : w.id ∉ rest.map (fun w => w.id) := (List.nodup_cons.mp hids).1
    have hids' : (rest.map (fun w => w.id)).Nodup := (List.nodup_cons.mp hids).2
    rcases List.mem_cons.mp hmem with hzw | hzrest
    · subst hzw
      rw [List.filterMap_cons_some he] at hents
      have hent1 : e ∉ rest.filterMap (fun w => w.climate_entity_id) :=
        (List.nodup_cons.mp hents).1
      simp only [boostLoop, he, hst]
      rw [if_neg (by rw [hwf]; decide)]
      have hrestid : ∀ v ∈ rest, v.id ≠ z.id := by
        intro v hv hx
        exact hidw (by rw [← hx]; exact List.mem_map_of_mem _ hv)
      have hreste : ∀ v ∈ rest, v.climate_entity_id ≠ some e := by
        intro v hv hx
        exact hent1 (List.mem_filterMap.mpr ⟨v, hv, hx⟩)
      constructor
      · rw [boostLoop_bu_untouched _ _ _ _ _ _ _ hrestid,
          lookupA_insertA_self]
      · rw [boostLoop_env_untouched _ _ _ _ _ _ _ hreste]
        rw [ht]
        have := getState_write_self env e (t + delta) st hst
        simpa using this
    · cases hcw : w.climate_entity_id with
      | none =>
        rw [List.filterMap_cons_none hcw] at hents
        simp only [boostLoop, hcw]
        exact ih env bu z e st t hzrest hids' hents he hst ht hwf
      | some e2 =>
        rw [List.filterMap_cons_some hcw] at hents
        have hent1 : e2 ∉ rest.filterMap (fun w => w.climate_entity_id) :=
          (List.nodup_cons.mp hents).1
        have hentsr : (rest.filterMap (fun w => w.climate_entity_id)).Nodup :=
          (List.nodup_cons.mp hents).2
        cases hsw : env.getState e2 with
        | none =>
          simp only [boostLoop, hcw, hsw]
          exact ih env bu z e st t hzrest hids' hentsr he hst ht hwf
        | some st2 =>
          by_cases hwf2 : env.writeFails.contains e2 = true
          · simp only [boostLoop, hcw, hsw, if_pos hwf2]
            exact ih env bu z e st t hzrest hids' hentsr he hst ht hwf
          · simp only [boostLoop, hcw, hsw, if_neg hwf2]
            have hee2 : e ≠ e2 := by
              intro hx
              refine hent1 ?_
              rw [← hx]
              exact List.mem_filterMap.mpr ⟨z, hzrest, he⟩
            have hst' : (env.write e2 (st2.temperature.getD 20 + delta)).getState e
                = some st := by
              rw [getState_write_ne _ _ _ _ hee2]
              exact hst
            have hwf' : (env.write e2 (st2.temperature.getD 20 + delta)).writeFails.contains e
                = false := by
              rw [write_writeFails]
              exact hwf
            exact ih _ _ z e st t hzrest hids' hentsr he hst' ht hwf'

/-- C9: a boost invocation, whether for one zone or for all, reads each
targeted zone's current actuator setpoint, writes `setpoint + delta` to
the actuator, and sets the zone's boost expiry to `now + duration`
(provided the targeted zones are distinct, the zone's climate entity has
a readable setpoint, and the write succeeds). -/
theorem C9_boost_reads_writes_and_sets_expiry (c : Coordinator) (env : Env)
    (now duration_minutes : Int) (temp_increase : ℚ)
    (zone_id : Option String) (z : ZoneData) (e : String) (st : EntityState)
    (t : ℚ)
    (hmem : z ∈ c.zones_to_boost zone_id)
    (hids : ((c.zones_to_boost zone_id).map (fun w => w.id)).Nodup)
    (hents : ((c.zones_to_boost zone_id).filterMap
        (fun w => w.climate_entity_id)).Nodup)
    (he : z.climate_entity_id = some e)
    (hst : env.getState e = some st)
    (ht : st.temperature = some t)
    (hwf : env.writeFails.contains e = false) :
    lookupA (c.boost_zone env now zone_id duration_minutes
        temp_increase).1.boost_until z.id =
      some (now + duration_minutes * 60)
    ∧ (c.boost_zone env now zone_id duration_minutes
        temp_increase).2.1.getState e =
      some ⟨st.stateVal, some (t + temp_increase)⟩ := by
  have h := boostLoop_member now duration_minutes temp_increase
    (c.zones_to_boost zone_id) env c.boost_until z e st t hmem hids hents
    he hst ht hwf
  exact h

/-- Witness for `C9_boost_reads_writes_and_sets_expiry`: boosting zone
"z1" (actuator at 19) by 2 degrees for 120 minutes at time 0 writes 21
and sets the expiry to 7200. -/
theorem C9_boost_reads_writes_and_sets_expiry_witness :
    lookupA (coordPoll.boost_zone envZ1 0 (some "z1") 120 2).1.boost_until
      "z1" = some (0 + 120 * 60)
    ∧ (coordPoll.boost_zone envZ1 0 (some "z1") 120 2).2.1.getState
        "climate.z1" = some ⟨none, some (19 + 2)⟩ :=
  C9_boost_reads_writes_and_sets_expiry coordPoll envZ1 0 120 2 (some "z1")
    zoneD1 "climate.z1" ⟨none, some 19⟩ 19 (by decide) (by decide) (by decide)
    rfl (by decide) rfl (by decide)

/-- The away-mode enable loop never records a snapshot under an id
outside the processed zone list. -/
theorem awayEnableLoop_saved_untouched (zones : List ZoneData) :
    ∀ (env : Env) (saved : List (String × ℚ)) (i : String),
    (∀ w ∈ zones, w.id ≠ i) →
    lookupA (awayEnableLoop env saved zones).2.1 i = lookupA saved i := by
  induction zones with
  | nil => intro env saved i _; rfl
  | cons w rest ih =>
    intro env saved i hw
    have hwid : w.id ≠ i := hw w (List.mem_cons_self w rest)
    have hrest : ∀ v ∈ rest, v.id ≠ i :=
      fun v hv => hw v (List.mem_cons_of_mem w hv)
    cases hce : w.climate_entity_id with
    | none =>
      simp only [awayEnableLoop, hce]
      exact ih env saved i hrest
    | some e =>
      cases hsw : env.getState e with
      | none =>
        simp only [awayEnableLoop, hce, hsw, Option.isSome_none,
          Bool.false_and, Bool.false_eq_true, if_false]
        exact ih env saved i hrest
      | some st =>
        cases hts : st.temperature with
        | none =>
          by_cases hwf : env.writeFails.contains e = true
          · simp only [awayEnableLoop, hce, hsw, hts, hwf,
              Option.isSome_some, Bool.true_and, Bool.not_true,
              Bool.false_eq_true, if_false]
            exact ih env saved i hrest
          · simp only [awayEnableLoop, hce, hsw, hts,
              Bool.eq_false_iff.mpr hwf, Option.isSome_some, Bool.true_and,
              Bool.not_false, if_true]
            exact ih _ saved i hrest
        | some t =>
          by_cases hwf : env.writeFails.contains e = true
          · simp only [awayEnableLoop, hce, hsw, hts, hwf,
              Option.isSome_some, Bool.true_and, Bool.not_true,
              Bool.false_eq_true, if_false]
            rw [ih env _ i hrest, lookupA_insertA_ne _ _ _ _ (Ne.symm hwid)]
          · simp only [awayEnableLoop, hce, hsw, hts,
              Bool.eq_false_iff.mpr hwf, Option.isSome_some, Bool.true_and,
              Bool.not_false, if_true]
            rw [ih _ _ i hrest, lookupA_insertA_ne _ _ _ _ (Ne.symm hwid)]

/-- The away-mode enable loop never touches an entity that no processed
zone is bound to. -/
theorem awayEnableLoop_env_untouched (zones : List ZoneData) :
    ∀ (env : Env) (saved : List (String × ℚ)) (e : String),
    (∀ w ∈ zones, w.climate_entity_id ≠ some e) →
    (awayEnableLoop env saved zones).1.getState e = env.getState e := by
  induction zones with
  | nil => intro env saved e _; rfl
  | cons w rest ih =>
    intro env saved e hw
    have hwe : w.climate_entity_id ≠ some e := hw w (List.mem_cons_self w rest)
    have hrest : ∀ v ∈ rest, v.climate_entity_id ≠ some e :=
      fun v hv => hw v (List.mem_cons_of_mem w hv)
    cases hce : w.climate_entity_id with
    | none =>
      simp only [awayEnableLoop, hce]
      exact ih env saved e hrest
    | some e2 =>
      have hne : e ≠ e2 := fun hx => hwe (by rw [hce, hx])
      cases hsw : env.getState e2 with
      | none =>
        simp only [awayEnableLoop, hce, hsw, Option.isSome_none,
          Bool.false_and, Bool.false_eq_true, if_false]
        exact ih env saved e hrest
      | some st =>
        by_cases hwf : env.writeFails.contains e2 = true
        · simp only [awayEnableLoop, hce, hsw, hwf, Option.isSome_some,
            Bool.true_and, Bool.not_true, Bool.false_eq_true, if_false]
          exact ih env _ e hrest
        · simp only [awayEnableLoop, hce, hsw, Bool.eq_false_iff.mpr hwf,
            Option.isSome_some, Bool.true_and, Bool.not_false, if_true]
          rw [ih _ _ e hrest, getState_write_ne _ _ _ _ hne]

/-- The away-mode enable loop preserves the set of failing writes. -/
theorem awayEnableLoop_writeFails (zones : List ZoneData) :
    ∀ (env : Env) (saved : List (String × ℚ)),
    (awayEnableLoop env saved zones).1.writeFails = env.writeFails := by
  induction zones with
  | nil => intro env saved; rfl
  | cons w rest ih =>
    intro env saved
    cases hce : w.climate_entity_id with
    | none =>
      simp only [awayEnableLoop, hce]
      exact ih env saved
    | some e =>
      cases hsw : env.getState e with
      | none =>
        simp only [awayEnableLoop, hce, hsw, Option.isSome_none,
          Bool.false_and, Bool.false_eq_true, if_false]
        exact ih env saved
      | some st =>
        by_cases hwf : env.writeFails.contains e = true
        · simp only [awayEnableLoop, hce, hsw, hwf, Option.isSome_some,
            Bool.true_and, Bool.not_true, Bool.false_eq_true, if_false]
          exact ih env _
        · simp only [awayEnableLoop, hce, hsw, Bool.eq_false_iff.mpr hwf,
            Option.isSome_some, Bool.true_and, Bool.not_false, if_true]
          rw [ih _ _, write_writeFails]

/-- Effect of the away-mode enable loop on a member zone: its setpoint is
snapshotted exactly when the temperature attribute is readable, and its
actuator is written to the zone's minimum temperature. -/
theorem awayEnableLoop_member (zones : List ZoneData) :
    ∀ (env : Env) (saved : List (String × ℚ)) (z : ZoneData) (e : String)
      (st : EntityState),
    z ∈ zones →
    (zones.map (fun w => w.id)).Nodup →
    (zones.filterMap (fun w => w.climate_entity_id)).Nodup →
    z.climate_entity_id = some e →
    env.getState e = some st →
    env.writeFails = [] →
    lookupA (awayEnableLoop env saved zones).2.1 z.id =
      (match st.temperature with
       | some t => some t
       | none => lookupA saved z.id)
    ∧ (awayEnableLoop env saved zones).1.getState e =
      some ⟨st.stateVal, some (z.min_temp_c.getD 16)⟩ := by
  induction zones with
  | nil =>
    intro env saved z e st hmem
    exact absurd hmem (List.not_mem_nil z)
  | cons w rest ih =>
    intro env saved z e st hmem hids hents he hst hwf
    rw [List.map_cons] at hids
    have hidw : w.id ∉ rest.map (fun w => w.id) := (List.nodup_cons.mp hids).1
    have hids' : (rest.map (fun w => w.id)).Nodup := (List.nodup_cons.mp hids).2
    have hcont : ∀ x, env.writeFails.contains x = false := by
      intro x; rw [hwf]; rfl
    rcases List.mem_cons.mp hmem with hzw | hzrest
    · subst hzw
      rw [List.filterMap_cons_some he] at hents
      have hent1 : e ∉ rest.filterMap (fun w => w.climate_entity_id) :=
        (List.nodup_cons.mp hents).1
      have hrestid : ∀ v ∈ rest, v.id ≠ z.id := by
        intro v hv hx
        exact hidw (by rw [← hx]; exact List.mem_map_of_mem _ hv)
      have hreste : ∀ v ∈ rest, v.climate_entity_id ≠ some e := by
        intro v hv hx
        exact hent1 (List.mem_filterMap.mpr ⟨v, hv, hx⟩)
      cases hts : st.temperature with
      | some t =>
        simp only [awayEnableLoop, he, hst, hts, hcont e,
          Option.isSome_some, Bool.true_and, Bool.not_false, if_true]
        constructor
        · rw [awayEnableLoop_saved_untouched _ _ _ _ hrestid,
            lookupA_insertA_self]
        · rw [awayEnableLoop_env_untouched _ _ _ _ hreste]
          have := getState_write_self env e (z.min_temp_c.getD 16) st hst
          simpa using this
      | none =>
        simp only [awayEnableLoop, he, hst, hts, hcont e,
          Option.isSome_some, Bool.true_and, Bool.not_false, if_true]
        constructor
        · rw [awayEnableLoop_saved_untouched _ _ _ _ hrestid]
        · rw [awayEnableLoop_env_untouched _ _ _ _ hreste]
          have := getState_write_self env e (z.min_temp_c.getD 16) st hst
          simpa using this
    · cases hcw : w.climate_entity_id with
      | none =>
        rw [List.filterMap_cons_none hcw] at hents
        simp only [awayEnableLoop, hcw]
        exact ih env saved z e st hzrest hids' hents he hst hwf
      | some e2 =>
        rw [List.filterMap_cons_some hcw] at hents
        have hent1 : e2 ∉ rest.filterMap (fun w => w.climate_entity_id) :=
          (List.nodup_cons.mp hents).1
        have hentsr : (rest.filterMap (fun w => w.climate_entity_id)).Nodup :=
          (List.nodup_cons.mp hents).2
        have hee2 : e ≠ e2 := by
          intro hx
          refine hent1 ?_
          rw [← hx]
          exact List.mem_filterMap.mpr ⟨z, hzrest, he⟩
        have hwz : w.id ≠ z.id := by
          intro hx
          exact hidw (by rw [hx]; exact List.mem_map_of_mem _ hzrest)
        cases hsw : env.getState e2 with
        | none =>
          simp only [awayEnableLoop, hcw, hsw, Option.isSome_none,
            Bool.false_and, Bool.false_eq_true, if_false]
          exact ih env saved z e st hzrest hids' hentsr he hst hwf
        | some st2 =>
          have hst' : (env.write e2 (w.min_temp_c.getD 16)).getState e
              = some st := by
            rw [getState_write_ne _ _ _ _ hee2]
            exact hst
          have hwf' : (env.write e2 (w.min_temp_c.getD 16)).writeFails = [] := by
            rw [write_writeFails]
            exact hwf
          cases hts2 : st2.temperature with
          | none =>
            simp only [awayEnableLoop, hcw, hsw, hts2, hcont e2,
              Option.isSome_some, Bool.true_and, Bool.not_false, if_true]
            exact ih _ saved z e st hzrest hids' hentsr he hst' hwf'
          | some t2 =>
            simp only [awayEnableLoop, hcw, hsw, hts2, hcont e2,
              Option.isSome_some, Bool.true_and, Bool.not_false, if_true]
            have hres := ih _ (insertA saved w.id t2) z e st hzrest hids'
              hentsr he hst' hwf'
            refine ⟨?_, hres.2⟩
            rw [hres.1]
            cases st.temperature with
            | some t => rfl
            | none =>
              simp only
              rw [lookupA_insertA_ne _ _ _ _ (Ne.symm hwz)]

/-- The away-mode disable loop never touches an entity that no processed
zone is bound to. -/
theorem awayDisableLoop_env_untouched (saved : List (String × ℚ))
    (zones : List ZoneData) :
    ∀ (env : Env) (e : String),
    (∀ w ∈ zones, w.climate_entity_id ≠ some e) →
    (awayDisableLoop env saved zones).1.getState e = env.getState e := by
  induction zones with
  | nil => intro env e _; rfl
  | cons w rest ih =>
    intro env e hw
    have hwe : w.climate_entity_id ≠ some e := hw w (List.mem_cons_self w rest)
    have hrest : ∀ v ∈ rest, v.climate_entity_id ≠ some e :=
      fun v hv => hw v (List.mem_cons_of_mem w hv)
    cases hce : w.climate_entity_id with
    | none =>
      simp only [awayDisableLoop, hce]
      exact ih env e hrest
    | some e2 =>
      have hne : e ≠ e2 := fun hx => hwe (by rw [hce, hx])
      cases hsw : env.getState e2 with
      | none =>
        simp only [awayDisableLoop, hce, hsw, Option.isSome_none,
          Bool.false_and, Bool.false_eq_true, if_false]
        exact ih env e hrest
      | some st =>
        by_cases hwf : env.writeFails.contains e2 = true
        · simp only [awayDisableLoop, hce, hsw, hwf, Option.isSome_some,
            Bool.true_and, Bool.not_true, Bool.false_eq_true, if_false]
          exact ih env e hrest
        · simp only [awayDisableLoop, hce, hsw, Bool.eq_false_iff.mpr hwf,
            Option.isSome_some, Bool.true_and, Bool.not_false, if_true]
          rw [ih _ e hrest, getState_write_ne _ _ _ _ hne]

/-- Effect of the away-mode disable loop on a member zone: its actuator
is written to the saved snapshot value, or to the zone's target
temperature when no snapshot entry exists. -/
theorem awayDisableLoop_member (saved : List (String × ℚ))
    (zones : List ZoneData) :
    ∀ (env : Env) (z : ZoneData) (e : String) (st : EntityState),
    z ∈ zones →
    (zones.filterMap (fun w => w.climate_entity_id)).Nodup →
    z.climate_entity_id = some e →
    env.getState e = some st →
    env.writeFails = [] →
    (awayDisableLoop env saved zones).1.getState e =
      some ⟨st.stateVal,
        some ((lookupA saved z.id).getD (z.target_temp_c.getD 20))⟩ := by
  induction zones with
  | nil =>
    intro env z e st hmem
    exact absurd hmem (List.not_mem_nil z)
  | cons w rest ih =>
    intro env z e st hmem hents he hst hwf
    have hcont : ∀ x, env.writeFails.contains x = false := by
      intro x; rw [hwf]; rfl
    rcases List.mem_cons.mp hmem with hzw | hzrest
    · subst hzw
      rw [List.filterMap_cons_some he] at hents
      have hent1 : e ∉ rest.filterMap (fun w => w.climate_entity_id) :=
        (List.nodup_cons.mp hents).1
      have hreste : ∀ v ∈ rest, v.climate_entity_id ≠ some e := by
        intro v hv hx
        exact hent1 (List.mem_filterMap.mpr ⟨v, hv, hx⟩)
      simp only [awayDisableLoop, he, hst, hcont e, Option.isSome_some,
        Bool.true_and, Bool.not_false, if_true]
      rw [awayDisableLoop_env_untouched _ _ _ _ hreste]
      have := getState_write_self env e
        ((lookupA saved z.id).getD (z.target_temp_c.getD 20)) st hst
      simpa using this
    · cases hcw : w.climate_entity_id with
      | none =>
        rw [List.filterMap_cons_none hcw] at hents
        simp only [awayDisableLoop, hcw]
        exact ih env z e st hzrest hents he hst hwf
      | some e2 =>
        rw [List.filterMap_cons_some hcw] at hents
        have hent1 : e2 ∉ rest.filterMap (fun w => w.climate_entity_id) :=
          (List.nodup_cons.mp hents).1
        have hentsr : (rest.filterMap (fun w => w.climate_entity_id)).Nodup :=
          (List.nodup_cons.mp hents).2
        have hee2 : e ≠ e2 := by
          intro hx
          refine hent1 ?_
          rw [← hx]
          exact List.mem_filterMap.mpr ⟨z, hzrest, he⟩
        cases hsw : env.getState e2 with
        | none =>
          simp only [awayDisableLoop, hcw, hsw, Option.isSome_none,
            Bool.false_and, Bool.false_eq_true, if_false]
          exact ih env z e st hzrest hentsr he hst hwf
        | some st2 =>
          simp only [awayDisableLoop, hcw, hsw, hcont e2,
            Option.isSome_some, Bool.true_and, Bool.not_false, if_true]
          have hst' : (env.write e2
              ((lookupA saved w.id).getD (w.target_temp_c.getD 20))).getState e
              = some st := by
            rw [getState_write_ne _ _ _ _ hee2]
            exact hst
          have hwf' : (env.write e2
              ((lookupA saved w.id).getD (w.target_temp_c.getD 20))).writeFails
              = [] := by
            rw [write_writeFails]
            exact hwf
          exact ih _ z e st hzrest hentsr he hst' hwf'

/-- Enabling away mode when it is off runs the enable loop and records
the snapshot. -/
theorem set_away_mode_enable (c : Coordinator) (env : Env) (t1 : Int)
    (haway : c.away_mode = false) :
    c.set_away_mode env t1 true =
      ({ c with away_mode := true, away_mode_since := some t1,
                saved_setpoints := (awayEnableLoop env [] c.zones).2.1 },
       (awayEnableLoop env [] c.zones).1,
       (awayEnableLoop env [] c.zones).2.2) := by
  simp only [Coordinator.set_away_mode, haway, Bool.not_false, Bool.true_and,
    if_true]

/-- Disabling away mode when it is on runs the disable loop and clears
the snapshot. -/
theorem set_away_mode_disable (c : Coordinator) (env : Env) (t2 : Int)
    (haway : c.away_mode = true) :
    c.set_away_mode env t2 false =
      ({ c with away_mode := false, away_mode_since := none,
                saved_setpoints := [] },
       (awayDisableLoop env c.saved_setpoints c.zones).1,
       (awayDisableLoop env c.saved_setpoints c.zones).2) := by
  simp only [Coordinator.set_away_mode, haway, Bool.false_and, Bool.not_false,
    Bool.true_and, Bool.false_eq_true, if_false, if_true]

/-- C8: with away mode off, enabling it snapshots each zone's current
actuator setpoint and writes the zone's configured minimum; disabling it
afterwards restores each snapshotted zone to its snapshot value, writes
the configured target temperature to each zone without a snapshot entry,
and clears the snapshot — so the enable-then-disable round trip restores
every snapshotted zone's setpoint to its value at activation (zones
assumed distinct, states readable, writes succeeding). -/
theorem C8_away_mode_round_trip (c : Coordinator) (env : Env) (t1 t2 : Int)
    (hids : (c.zones.map (fun w => w.id)).Nodup)
    (hents : (c.zones.filterMap (fun w => w.climate_entity_id)).Nodup)
    (haway : c.away_mode = false)
    (hwf : env.writeFails = []) :
    (∀ z e st t, z ∈ c.zones → z.climate_entity_id = some e →
      env.getState e = some st → st.temperature = some t →
      lookupA (c.set_away_mode env t1 true).1.saved_setpoints z.id = some t
      ∧ (c.set_away_mode env t1 true).2.1.getState e =
          some ⟨st.stateVal, some (z.min_temp_c.getD 16)⟩
      ∧ ((c.set_away_mode env t1 true).1.set_away_mode
            (c.set_away_mode env t1 true).2.1 t2 false).2.1.getState e =
          some ⟨st.stateVal, some t⟩)
    ∧ (∀ z e st, z ∈ c.zones → z.climate_entity_id = some e →
      env.getState e = some st → st.temperature = none →
      ((c.set_away_mode env t1 true).1.set_away_mode
          (c.set_away_mode env t1 true).2.1 t2 false).2.1.getState e =
        some ⟨st.stateVal, some (z.target_temp_c.getD 20)⟩)
    ∧ ((c.set_away_mode env t1 true).1.set_away_mode
          (c.set_away_mode env t1 true).2.1 t2 false).1.saved_setpoints = []
    ∧ ((c.set_away_mode env t1 true).1.set_away_mode
          (c.set_away_mode env t1 true).2.1 t2 false).1.away_mode = false := by
  have hen := set_away_mode_enable c env t1 haway
  have hdis := set_away_mode_disable
    { c with away_mode := true, away_mode_since := some t1,
             saved_setpoints := (awayEnableLoop env [] c.zones).2.1 }
    (awayEnableLoop env [] c.zones).1 t2 rfl
  have hwfE : (awayEnableLoop env [] c.zones).1.writeFails = [] := by
    rw [awayEnableLoop_writeFails]
    exact hwf
  refine ⟨?_, ?_, ?_, ?_⟩
  · intro z e st t hmem he hst hts
    have hE := awayEnableLoop_member c.zones env [] z e st hmem hids hents
      he hst hwf
    have hE1 : lookupA (awayEnableLoop env [] c.zones).2.1 z.id = some t := by
      rw [hE.1, hts]
    rw [hen]
    dsimp only
    refine ⟨hE1, hE.2, ?_⟩
    rw [hdis]
    dsimp only
    have hD := awayDisableLoop_member (awayEnableLoop env [] c.zones).2.1
      c.zones (awayEnableLoop env [] c.zones).1 z e
      ⟨st.stateVal, some (z.min_temp_c.getD 16)⟩ hmem hents he hE.2 hwfE
    rw [hD, hE1]
    rfl
  · intro z e st hmem he hst hts
    have hE := awayEnableLoop_member c.zones env [] z e st hmem hids hents
      he hst hwf
    have hE1 : lookupA (awayEnableLoop env [] c.zones).2.1 z.id = none := by
      rw [hE.1, hts]
      rfl
    rw [hen]
    dsimp only
    rw [hdis]
    dsimp only
    have hD := awayDisableLoop_member (awayEnableLoop env [] c.zones).2.1
      c.zones (awayEnableLoop env [] c.zones).1 z e
      ⟨st.stateVal, some (z.min_temp_c.getD 16)⟩ hmem hents he hE.2 hwfE
    rw [hD, hE1]
    rfl
  · rw [hen]
    dsimp only
    rw [hdis]
  · rw [hen]
    dsimp only
    rw [hdis]

/-- Witness for `C8_away_mode_round_trip`: two zones at activation, "z1"
at 18 degrees (snapshotted and restored to 18) and "z2" with no readable
setpoint (restored to its configured target 20); snapshot cleared. -/
theorem C8_away_mode_round_trip_witness :
    lookupA (coordAway.set_away_mode envAway 0 true).1.saved_setpoints
      "z1" = some 18
    ∧ ((coordAway.set_away_mode envAway 0 true).1.set_away_mode
        (coordAway.set_away_mode envAway 0 true).2.1 50
        false).2.1.getState "climate.z1" = some ⟨none, some 18⟩
    ∧ ((coordAway.set_away_mode envAway 0 true).1.set_away_mode
        (coordAway.set_away_mode envAway 0 true).2.1 50
        false).2.1.getState "climate.z2" = some ⟨none, some 20⟩
    ∧ ((coordAway.set_away_mode envAway 0 true).1.set_away_mode
        (coordAway.set_away_mode envAway 0 true).2.1 50
        false).1.saved_setpoints = [] :=
  let h := C8_away_mode_round_trip coordAway envAway 0 50 (by decide)
    (by decide) rfl rfl
  ⟨(h.1 zoneD1 "climate.z1" ⟨none, some 18⟩ 18 (by decide) rfl rfl
      rfl).1,
   (h.1 zoneD1 "climate.z1" ⟨none, some 18⟩ 18 (by decide) rfl rfl
      rfl).2.2,
   h.2.1 zoneB "climate.z2" ⟨none, none⟩ (by decide) rfl rfl rfl,
   h.2.2.1⟩

end SmartHeating
